import Mathlib

/-!
Verification of the webhook registration/dispatch layer of the
spinnaker-operator repository, as a shallow embedding in Lean 4.

Embedded source files:
  * controllers/webhook/webhook.go     (package webhook): the registry,
    path generator, Start, operator identity resolution, and the builder
    of the ValidatingWebhookConfiguration object.
  * the accountvalidating admission controller (package accountvalidating):
    the Handle dispatcher for SpinnakerAccount admission requests.

External collaborators (the kubernetes client, the accounts type registry,
the secrets context provider, the admission decoder and per-type
validators) are modelled as explicit inputs: each is a field of an
environment record, so theorems quantify over every possible behaviour of
the collaborator.  Go strings are Lean Strings; the only byte-level string
operations used by the source (replacing "." with "-" and ASCII
lowercasing) are embedded as character maps, which agree with the Go
functions on the inputs involved.  Go errors are Except / Option values.
-/

namespace SpinnakerWebhook

/-- Resource identity: the schema.GroupVersionKind triple from
k8s.io/apimachinery. -/
structure GroupVersionKind where
  group : String
  version : String
  kind : String
  deriving DecidableEq, Repr

/-- Character-wise embedding of Go strings.Replace(s, ".", "-", -1):
the pattern and replacement are single ASCII bytes, so replacing every
occurrence of "." by "-" is exactly a character map. -/
def replaceDots (s : String) : String :=
  String.mk (s.data.map (fun c => if c = '.' then '-' else c))

/-- ASCII lowercasing of one character, as Go strings.ToLower acts on
the ASCII range. -/
def lowerAscii (c : Char) : Char :=
  if 65 ≤ c.toNat ∧ c.toNat ≤ 90 then Char.ofNat (c.toNat + 32) else c

/-- Embedding of Go strings.ToLower restricted to its ASCII behaviour. -/
def toLowerGo (s : String) : String :=
  String.mk (s.data.map lowerAscii)

/-- Embedding of generateValidatePath (webhook.go): the URL path served
for a registered kind. -/
def generateValidatePath (gvk : GroupVersionKind) : String :=
  "/validate-" ++ replaceDots gvk.group ++ "-" ++
    gvk.version ++ "-" ++ toLowerGo gvk.kind

/-- Embedding of the registration struct (webhook.go).  The handler is an
opaque capability, modelled by an identifier. -/
structure registration where
  kind : GroupVersionKind
  h : Nat
  p : String
  r : String
  deriving DecidableEq, Repr

/-- Embedding of Register (webhook.go): appends one registration whose
path is derived from the kind.  The Go function has no error return. -/
def Register (kind : GroupVersionKind) (resources : String) (h : Nat)
    (regs : List registration) : List registration :=
  regs ++ [{ kind := kind, h := h, p := generateValidatePath kind, r := resources }]

/-- A startup sequence of Register calls applied to the initially empty
process-wide registrations list. -/
def applyRegisterCalls (calls : List (GroupVersionKind × String × Nat)) :
    List registration :=
  calls.foldl (fun regs c => Register c.1 c.2.1 c.2.2 regs) []

/-! ### ValidatingWebhookConfiguration (k8s admissionregistration/v1 types) -/

/-- Embedding of ar_v1.OperationType. -/
inductive OperationType where
  | Create
  | Update
  | Delete
  | Connect
  deriving DecidableEq, Repr

/-- Embedding of ar_v1.SideEffectClass. -/
inductive SideEffectClass where
  | None
  | Some
  | Unknown
  | NoneOnDryRun
  deriving DecidableEq, Repr

/-- Embedding of ar_v1.ServiceReference. -/
structure ServiceReference where
  Namespace : String
  name : String
  path : String
  deriving DecidableEq, Repr

/-- Embedding of ar_v1.WebhookClientConfig; the CA bundle is a byte list. -/
structure WebhookClientConfig where
  service : ServiceReference
  caBundle : List Nat
  deriving DecidableEq, Repr

/-- Embedding of ar_v1.Rule. -/
structure AdmissionRule where
  apiGroups : List String
  apiVersions : List String
  resources : List String
  deriving DecidableEq, Repr

/-- Embedding of ar_v1.RuleWithOperations. -/
structure RuleWithOperations where
  operations : List OperationType
  rule : AdmissionRule
  deriving DecidableEq, Repr

/-- Embedding of ar_v1.ValidatingWebhook, restricted to the fields the
source sets. -/
structure ValidatingWebhook where
  name : String
  clientConfig : WebhookClientConfig
  rules : List RuleWithOperations
  sideEffects : SideEffectClass
  admissionReviewVersions : List String
  deriving DecidableEq, Repr

/-- Embedding of ar_v1.ValidatingWebhookConfiguration, restricted to the
fields the source sets. -/
structure ValidatingWebhookConfiguration where
  name : String
  Namespace : String
  webhooks : List ValidatingWebhook
  deriving DecidableEq, Repr

/-- The webhook entry the loop body of deployValidatingWebhookConfiguration
(webhook.go) appends for one registration. -/
def webhookEntryFor (svcName ns : String) (cert : List Nat)
    (r : registration) : ValidatingWebhook :=
  { name := "webhook-" ++ r.r ++ "-" ++ r.kind.version ++ "." ++ toLowerGo r.kind.group
    clientConfig :=
      { service := { Namespace := ns, name := svcName, path := r.p }
        caBundle := cert }
    rules :=
      [{ operations := [OperationType.Create, OperationType.Update]
         rule :=
           { apiGroups := [r.kind.group]
             apiVersions := [r.kind.version]
             resources := [r.r] } }]
    sideEffects := SideEffectClass.None
    admissionReviewVersions := ["v1beta1", "v1"] }

/-- The pure part of deployValidatingWebhookConfiguration (webhook.go):
the ValidatingWebhookConfiguration object it builds before handing it to
util.CreateOrUpdateValidatingWebhookConfiguration.  The Go for loop
appends webhookEntryFor for each registration in order, which is a map. -/
def buildValidatingWebhookConfiguration (svcName ns : String)
    (cert : List Nat) (regs : List registration) :
    ValidatingWebhookConfiguration :=
  { name := "spinnakervalidatingwebhook"
    Namespace := ns
    webhooks := regs.map (webhookEntryFor svcName ns cert) }

/-! ### Start and operator identity resolution (webhook.go) -/

/-- Embedding of the certContext value returned by getCertContext: the
certificate directory and the CA signing certificate bytes. -/
structure certContext where
  certDir : String
  signingCert : List Nat
  deriving DecidableEq, Repr

/-- Environment of Start: the outcome of each external collaborator call.
k8sutil.GetOperatorName / GetOperatorNamespace and os.Getenv are runtime
platform lookups; deployWebhookService and the final create-or-update of
the webhook configuration go through the kubernetes client; getCertContext
does storage and crypto I/O.  Quantifying over this record quantifies over
every behaviour of those collaborators. -/
structure StartEnv where
  getOperatorName : Except String String
  getOperatorNamespace : Except String String
  envAdmissionProxyNamespace : String
  deployServiceErr : Option String
  certResult : Except String certContext
  deployWebhookConfigErr : Option String
  deriving Repr

/-- Embedding of getOperatorNameAndNamespace (webhook.go).  Returns
(namespace, name) in the order of the Go return values. -/
def getOperatorNameAndNamespace (env : StartEnv) :
    Except String (String × String) :=
  match env.getOperatorName with
  | Except.error e => Except.error e
  | Except.ok name =>
    match env.getOperatorNamespace with
    | Except.ok ns => Except.ok (ns, name)
    | Except.error e =>
      if env.envAdmissionProxyNamespace = "" then
        Except.error ("unable to determine operator namespace. Error: " ++ e ++
          " and ADMISSION_PROXY_NAMESPACE env var not set")
      else
        Except.ok (env.envAdmissionProxyNamespace, name)

/-- The internal listening port of the webhook server (webhook.go). -/
def servicePort : Nat := 9876

/-- Observable outcome of a successful Start: the webhook server
configuration and the deployed validating webhook configuration object. -/
structure StartResult where
  certDir : String
  port : Nat
  serverPaths : List (String × Nat)
  webhookConfig : ValidatingWebhookConfiguration
  deriving DecidableEq, Repr

/-- Embedding of Start (webhook.go).  serverPaths collects the
(path, handler) pairs passed to hookServer.Register, in order. -/
def Start (env : StartEnv) (regs : List registration) :
    Except String StartResult :=
  if regs.length = 0 then
    Except.error "no kind registered for validation"
  else
    match getOperatorNameAndNamespace env with
    | Except.error e => Except.error e
    | Except.ok (ns, name) =>
      match env.deployServiceErr with
      | some e => Except.error e
      | none =>
        match env.certResult with
        | Except.error e => Except.error e
        | Except.ok c =>
          match env.deployWebhookConfigErr with
          | some e => Except.error e
          | none =>
            Except.ok
              { certDir := c.certDir
                port := servicePort
                serverPaths := regs.map (fun r => (r.p, r.h))
                webhookConfig :=
                  buildValidatingWebhookConfiguration name ns c.signingCert regs }

/-! ### The accountvalidating admission controller (Handle) -/

/-- Admission request envelope: the requested resource identity
(req.AdmissionRequest.Kind) and the raw object payload bytes. -/
structure AdmissionRequest where
  kind : GroupVersionKind
  payload : List Nat
  deriving DecidableEq, Repr

/-- Decoded SpinnakerAccount object, restricted to the fields Handle
reads: acc.GetSpec().Type and acc.GetNamespace(). -/
structure Account where
  specType : String
  Namespace : String
  deriving DecidableEq, Repr

/-- Admission response, per the wire contract: allowed flag, optional
HTTP-style status code, human-readable message. -/
structure AdmissionResponse where
  allowed : Bool
  statusCode : Option Nat
  message : String
  deriving DecidableEq, Repr

/-- Embedding of admission.Errored(code, err): deny with the given HTTP
status code and the error text as the message. -/
def Errored (code : Nat) (err : String) : AdmissionResponse :=
  { allowed := false, statusCode := some code, message := err }

/-- Embedding of admission.ValidationResponse(allowed, reason), an
external collaborator of the source: per the response contract, carries
the allowed flag and the optional reason, with no error status code. -/
def ValidationResponse (allowed : Bool) (reason : String) :
    AdmissionResponse :=
  { allowed := allowed, statusCode := none, message := reason }

/-- Environment of Handle: the behaviour of each external collaborator.
gvGroup / gvVersion come from TypesFactory.GetGroupVersion(); decode is
decoder.Decode on the raw payload; getType is accounts.GetType on the
account spec type (returning an opaque account-type capability); fromCRD
is accType.FromCRD (returning an opaque spinnaker account capability);
validate is the result of spinAccount.NewValidator().Validate(...) —
none for success, some error text for failure. -/
structure HandleEnv where
  gvGroup : String
  gvVersion : String
  decode : List Nat → Except String Account
  getType : String → Except String Nat
  fromCRD : Nat → Account → Except String Nat
  validate : Nat → Option String

/-- Observable trace of one Handle call: the response together with how
often the payload was decoded, the validator ran, and the scoped
secret-resolution context was acquired (secrets.NewContext) and released
(secrets.Cleanup). -/
structure HandleTrace where
  response : AdmissionResponse
  decodeCalls : Nat
  validateCalls : Nat
  contextAcquires : Nat
  contextReleases : Nat
  deriving DecidableEq, Repr

/-- http.StatusBadRequest. -/
def StatusBadRequest : Nat := 400

/-- http.StatusUnprocessableEntity. -/
def StatusUnprocessableEntity : Nat := 422

/-- Embedding of accountValidatingController.Handle.  The matched branch
runs only when the requested kind is "SpinnakerAccount" and group and
version equal the registered group/version; inside it, decode, type
resolution and CRD conversion failures return admission.Errored 400,
then secrets.NewContext is acquired with a deferred secrets.Cleanup
(released on both remaining exits), and a validation failure returns
admission.Errored 422.  Every other path returns
admission.ValidationResponse(true, ""). -/
def Handle (env : HandleEnv) (req : AdmissionRequest) : HandleTrace :=
  if req.kind.kind = "SpinnakerAccount" ∧ env.gvGroup = req.kind.group ∧
      env.gvVersion = req.kind.version then
    match env.decode req.payload with
    | Except.error e =>
      { response := Errored StatusBadRequest e
        decodeCalls := 1, validateCalls := 0
        contextAcquires := 0, contextReleases := 0 }
    | Except.ok acc =>
      match env.getType acc.specType with
      | Except.error e =>
        { response := Errored StatusBadRequest e
          decodeCalls := 1, validateCalls := 0
          contextAcquires := 0, contextReleases := 0 }
      | Except.ok accType =>
        match env.fromCRD accType acc with
        | Except.error e =>
          { response := Errored StatusBadRequest e
            decodeCalls := 1, validateCalls := 0
            contextAcquires := 0, contextReleases := 0 }
        | Except.ok spinAccount =>
          match env.validate spinAccount with
          | some e =>
            { response := Errored StatusUnprocessableEntity e
              decodeCalls := 1, validateCalls := 1
              contextAcquires := 1, contextReleases := 1 }
          | none =>
            { response := ValidationResponse true ""
              decodeCalls := 1, validateCalls := 1
              contextAcquires := 1, contextReleases := 1 }
  else
    { response := ValidationResponse true ""
      decodeCalls := 0, validateCalls := 0
      contextAcquires := 0, contextReleases := 0 }

/-! ### Spec-level rendering of the path form -/

/-- The path form stated by the spec: the segments /validate, the group
with dots as dashes, the version, and the lowercased kind, joined by
dashes. -/
def specValidatePath (gvk : GroupVersionKind) : String :=
  String.intercalate "-"
    ["/validate", replaceDots gvk.group, gvk.version, toLowerGo gvk.kind]

/-! ### Theorems -/

/-- C3 counterexample: the path generator applied to the identity
(group = "", version = "v1", kind = "Pod") does NOT yield
/validate-v1-pod — the empty group still contributes a dash, so a double
dash appears. -/
theorem empty_group_pod_path_counterexample :
    generateValidatePath { group := "", version := "v1", kind := "Pod" } ≠
      "/validate-v1-pod" := by decide

/-- C3 (amended): registering the identity (group = "", version = "v1",
kind = "Pod") yields the URL path /validate--v1-pod from the path
generator: the empty group leaves an empty segment between two dashes. -/
theorem empty_group_pod_path :
    generateValidatePath { group := "", version := "v1", kind := "Pod" } =
      "/validate--v1-pod" := by decide

/-- C6: for every (group, version, kind) triple the path generator is
deterministic — re-invoking it twice on the same identity yields the same
path — and produces a path of the spec form
/validate-(group with dots as dashes)-(version)-(lowercased kind). -/
theorem path_deterministic_and_spec_form (gvk : GroupVersionKind) :
    generateValidatePath gvk = generateValidatePath gvk ∧
    generateValidatePath gvk = specValidatePath gvk := by
  refine ⟨rfl, ?_⟩
  apply String.ext
  simp [generateValidatePath, specValidatePath, String.intercalate,
    String.intercalate.go, String.data_append]

/-- Helper: a foldl of Register calls grows the list by one entry per
call. -/
theorem register_foldl_length (calls : List (GroupVersionKind × String × Nat))
    (regs : List registration) :
    (calls.foldl (fun rs c => Register c.1 c.2.1 c.2.2 rs) regs).length =
      regs.length + calls.length := by
  induction calls generalizing regs with
  | nil => simp
  | cons c cs ih =>
    rw [List.foldl_cons, ih]
    simp only [Register, List.length_append, List.length_cons, List.length_nil]
    omega

/-- Helper: a foldl of Register calls preserves the invariant that every
entry stores the path generated from its kind. -/
theorem register_foldl_invariant (calls : List (GroupVersionKind × String × Nat))
    (regs : List registration)
    (hinv : ∀ r ∈ regs, r.p = generateValidatePath r.kind) :
    ∀ r ∈ calls.foldl (fun rs c => Register c.1 c.2.1 c.2.2 rs) regs,
      r.p = generateValidatePath r.kind := by
  induction calls generalizing regs with
  | nil => simpa using hinv
  | cons c cs ih =>
    intro r hr
    refine ih (Register c.1 c.2.1 c.2.2 regs) ?_ r (by simpa using hr)
    intro x hx
    simp only [Register, List.mem_append, List.mem_singleton] at hx
    rcases hx with hx | hx
    · exact hinv x hx
    · subst hx; rfl

/-- C10: Register never fails (it is a total function) and appends
exactly one entry per call, even for a duplicate identity, and the
registry built from any startup sequence of Register calls has one entry
per call, each of which stores the path generateValidatePath of its
stored kind. -/
theorem register_total_append_invariant :
    (∀ (kind : GroupVersionKind) (res : String) (h : Nat)
        (regs : List registration),
      (Register kind res h regs).length = regs.length + 1) ∧
    (∀ calls : List (GroupVersionKind × String × Nat),
      (applyRegisterCalls calls).length = calls.length ∧
      ∀ r ∈ applyRegisterCalls calls, r.p = generateValidatePath r.kind) := by
  constructor
  · intro kind res h regs
    simp [Register]
  · intro calls
    constructor
    · simpa using register_foldl_length calls []
    · exact register_foldl_invariant calls [] (by simp)

/-- The GroupVersionKind the accountvalidating controller registers. -/
def accountGVK : GroupVersionKind :=
  { group := "spinnaker.io", version := "v1alpha2", kind := "SpinnakerAccount" }

/-- A concrete duplicated startup sequence of Register calls. -/
def dupCalls : List (GroupVersionKind × String × Nat) :=
  [(accountGVK, "spinnakeraccounts", 0), (accountGVK, "spinnakeraccounts", 1)]

/-- C10 witness: a concrete sequence of two Register calls with the same
identity appends two entries, both carrying the generated path. -/
theorem register_total_append_invariant_witness :
    (Register accountGVK "spinnakeraccounts" 0 []).length = 0 + 1 ∧
    ((applyRegisterCalls dupCalls).length = dupCalls.length ∧
      ∀ r ∈ applyRegisterCalls dupCalls, r.p = generateValidatePath r.kind) :=
  ⟨register_total_append_invariant.1 accountGVK "spinnakeraccounts" 0 [],
   register_total_append_invariant.2 dupCalls⟩

/-! ### Dispatcher theorems -/

/-- C1: an admission request whose resource identity differs from the
registered SpinnakerAccount identity is allowed with no error, and the
payload is neither decoded nor validated and no secrets context is
touched — regardless of payload content. -/
theorem unmatched_request_allowed_without_decode
    (env : HandleEnv) (req : AdmissionRequest)
    (hne : req.kind ≠
      { group := env.gvGroup, version := env.gvVersion,
        kind := "SpinnakerAccount" }) :
    Handle env req =
      { response := { allowed := true, statusCode := none, message := "" }
        decodeCalls := 0, validateCalls := 0
        contextAcquires := 0, contextReleases := 0 } := by
  rcases req with ⟨⟨g, vsn, k⟩, payload⟩
  have hcond : ¬ (k = "SpinnakerAccount" ∧ env.gvGroup = g ∧
      env.gvVersion = vsn) := by
    rintro ⟨h1, h2, h3⟩
    exact hne (by simp [h1, ← h2, ← h3])
  simp [Handle, hcond, ValidationResponse]

/-- A concrete Handle environment used by the dispatcher witnesses: the
registered group/version is spinnaker.io/v1alpha2, payload [0] fails to
decode, payload [2] decodes to an unregistered account type, payload [3]
decodes to a type whose CRD conversion fails, payload [4] decodes to an
account whose validator rejects it, and any other payload passes every
step. -/
def envA : HandleEnv where
  gvGroup := "spinnaker.io"
  gvVersion := "v1alpha2"
  decode := fun payload =>
    if payload = [0] then Except.error "json parse error"
    else if payload = [2] then
      Except.ok { specType := "unknownType", Namespace := "ns1" }
    else if payload = [3] then
      Except.ok { specType := "badcrd", Namespace := "ns1" }
    else if payload = [4] then
      Except.ok { specType := "failval", Namespace := "ns1" }
    else Except.ok { specType := "kubernetes", Namespace := "ns1" }
  getType := fun t =>
    if t = "kubernetes" then Except.ok 1
    else if t = "badcrd" then Except.ok 2
    else if t = "failval" then Except.ok 3
    else Except.error ("account type not registered: " ++ t)
  fromCRD := fun ty _acc =>
    if ty = 2 then Except.error "malformed CRD" else Except.ok ty
  validate := fun sa =>
    if sa = 3 then some "name must be non-empty" else none

/-- C1 witness: a request for kind Service with a malformed payload is
allowed untouched. -/
theorem unmatched_request_allowed_witness :
    ({ group := "", version := "v1", kind := "Service" } : GroupVersionKind) ≠
      ({ group := envA.gvGroup, version := envA.gvVersion,
         kind := "SpinnakerAccount" } : GroupVersionKind) ∧
    Handle envA { kind := { group := "", version := "v1", kind := "Service" },
                  payload := [0] } =
      { response := { allowed := true, statusCode := none, message := "" }
        decodeCalls := 0, validateCalls := 0
        contextAcquires := 0, contextReleases := 0 } :=
  ⟨by decide,
   unmatched_request_allowed_without_decode envA
     { kind := { group := "", version := "v1", kind := "Service" },
       payload := [0] } (by decide)⟩

/-- C4: a matched admission request whose raw payload cannot be decoded
is denied with HTTP status 400 and the decode error text as the message
(and validation never runs, no secrets context is touched). -/
theorem matched_undecodable_denied_400
    (env : HandleEnv) (req : AdmissionRequest) (e : String)
    (hm : req.kind.kind = "SpinnakerAccount" ∧ env.gvGroup = req.kind.group ∧
      env.gvVersion = req.kind.version)
    (hdec : env.decode req.payload = Except.error e) :
    Handle env req =
      { response := Errored StatusBadRequest e
        decodeCalls := 1, validateCalls := 0
        contextAcquires := 0, contextReleases := 0 } := by
  simp [Handle, hm.1, hm.2.1, hm.2.2, hdec]

/-- C4 witness: the matched request with undecodable payload [0] is
denied with status 400 and message "json parse error". -/
theorem matched_undecodable_denied_400_witness :
    envA.decode [0] = Except.error "json parse error" ∧
    Handle envA { kind := accountGVK, payload := [0] } =
      { response := Errored StatusBadRequest "json parse error"
        decodeCalls := 1, validateCalls := 0
        contextAcquires := 0, contextReleases := 0 } :=
  ⟨rfl,
   matched_undecodable_denied_400 envA
     { kind := accountGVK, payload := [0] } "json parse error"
     (by decide) rfl⟩

/-- C2 counterexample: a matched request whose account type cannot be
resolved (a failed dependency lookup) is denied with HTTP status 400, not
422 as the claim states. -/
theorem dependency_lookup_status_counterexample :
    (Handle envA { kind := accountGVK, payload := [2] }).response.allowed
        = false ∧
    (Handle envA { kind := accountGVK, payload := [2] }).response.statusCode
        = some StatusBadRequest ∧
    (Handle envA { kind := accountGVK, payload := [2] }).response.statusCode
        ≠ some StatusUnprocessableEntity := by
  refine ⟨rfl, rfl, ?_⟩
  decide

/-- C2 (amended): for every matched admission request, a type-specific
rule violation reported by the validator (which is also how an unresolved
secret surfaces) is denied with HTTP status 422, while an unresolved
account type or a failed CRD conversion is denied with HTTP status 400. -/
theorem matched_failure_status_codes
    (env : HandleEnv) (req : AdmissionRequest) (acc : Account)
    (hm : req.kind.kind = "SpinnakerAccount" ∧ env.gvGroup = req.kind.group ∧
      env.gvVersion = req.kind.version)
    (hdec : env.decode req.payload = Except.ok acc) :
    (∀ e, env.getType acc.specType = Except.error e →
      (Handle env req).response = Errored StatusBadRequest e) ∧
    (∀ ty e, env.getType acc.specType = Except.ok ty →
      env.fromCRD ty acc = Except.error e →
      (Handle env req).response = Errored StatusBadRequest e) ∧
    (∀ ty sa e, env.getType acc.specType = Except.ok ty →
      env.fromCRD ty acc = Except.ok sa →
      env.validate sa = some e →
      (Handle env req).response = Errored StatusUnprocessableEntity e) := by
  refine ⟨fun e h => ?_, fun ty e h1 h2 => ?_, fun ty sa e h1 h2 h3 => ?_⟩
  · simp [Handle, hm.1, hm.2.1, hm.2.2, hdec, h]
  · simp [Handle, hm.1, hm.2.1, hm.2.2, hdec, h1, h2]
  · simp [Handle, hm.1, hm.2.1, hm.2.2, hdec, h1, h2, h3]

/-- C2 witness: payload [4] decodes, resolves, converts, and fails the
rule "name must be non-empty", giving deny with status 422; payload [2]
has an unresolved account type, giving deny with status 400. -/
theorem matched_failure_status_codes_witness :
    envA.decode [4] = Except.ok { specType := "failval", Namespace := "ns1" } ∧
    (Handle envA { kind := accountGVK, payload := [4] }).response
        = Errored StatusUnprocessableEntity "name must be non-empty" ∧
    (Handle envA { kind := accountGVK, payload := [2] }).response
        = Errored StatusBadRequest "account type not registered: unknownType" :=
  ⟨rfl,
   (matched_failure_status_codes envA
       { kind := accountGVK, payload := [4] }
       { specType := "failval", Namespace := "ns1" }
       (by decide) rfl).2.2 3 3 "name must be non-empty" rfl rfl rfl,
   (matched_failure_status_codes envA
       { kind := accountGVK, payload := [2] }
       { specType := "unknownType", Namespace := "ns1" }
       (by decide) rfl).1 "account type not registered: unknownType" rfl⟩

/-- C8: for every matched admission request that reaches the validation
step (decode, type resolution and CRD conversion all succeed), the scoped
secret-resolution context is acquired exactly once and released exactly
once, on the validation-failure exit (deny, status 422) as well as on the
success exit (allow). -/
theorem secrets_context_released_once
    (env : HandleEnv) (req : AdmissionRequest) (acc : Account)
    (ty sa : Nat)
    (hm : req.kind.kind = "SpinnakerAccount" ∧ env.gvGroup = req.kind.group ∧
      env.gvVersion = req.kind.version)
    (hdec : env.decode req.payload = Except.ok acc)
    (hty : env.getType acc.specType = Except.ok ty)
    (hcrd : env.fromCRD ty acc = Except.ok sa) :
    (Handle env req).contextAcquires = 1 ∧
    (Handle env req).contextReleases = 1 ∧
    (∀ e, env.validate sa = some e →
      (Handle env req).response = Errored StatusUnprocessableEntity e) ∧
    (env.validate sa = none →
      (Handle env req).response = ValidationResponse true "") := by
  have hh : Handle env req =
      match env.validate sa with
      | some e =>
        { response := Errored StatusUnprocessableEntity e
          decodeCalls := 1, validateCalls := 1
          contextAcquires := 1, contextReleases := 1 }
      | none =>
        { response := ValidationResponse true ""
          decodeCalls := 1, validateCalls := 1
          contextAcquires := 1, contextReleases := 1 } := by
    simp [Handle, hm.1, hm.2.1, hm.2.2, hdec, hty, hcrd]
  rcases hval : env.validate sa with _ | e <;>
    simp [hh, hval]

/-- C8 witness: payload [1] reaches validation and succeeds — the context
is acquired once and released once and the request is allowed; the
validation-failure exit is exercised by the same theorem on payload [4]. -/
theorem secrets_context_released_once_witness :
    (Handle envA { kind := accountGVK, payload := [1] }).contextAcquires = 1 ∧
    (Handle envA { kind := accountGVK, payload := [1] }).contextReleases = 1 ∧
    (Handle envA { kind := accountGVK, payload := [1] }).response
        = ValidationResponse true "" ∧
    (Handle envA { kind := accountGVK, payload := [4] }).contextAcquires = 1 ∧
    (Handle envA { kind := accountGVK, payload := [4] }).contextReleases = 1 :=
  have h1 := secrets_context_released_once envA
    { kind := accountGVK, payload := [1] }
    { specType := "kubernetes", Namespace := "ns1" } 1 1
    (by decide) rfl rfl rfl
  have h4 := secrets_context_released_once envA
    { kind := accountGVK, payload := [4] }
    { specType := "failval", Namespace := "ns1" } 3 3
    (by decide) rfl rfl rfl
  ⟨h1.1, h1.2.1, h1.2.2.2 rfl, h4.1, h4.2.1⟩

/-! ### Start, identity resolution and webhook configuration theorems -/

/-- C5: Start with zero registrations fails with the configuration error
"no kind registered for validation"; Start with one or more registrations
(when the startup collaborators succeed) registers exactly the
registrations' (path, handler) pairs on the webhook server, in order. -/
theorem start_zero_fails_nonzero_registers_paths
    (env : StartEnv) (regs : List registration) :
    (regs = [] → Start env regs =
      Except.error "no kind registered for validation") ∧
    (∀ ns name c, regs ≠ [] →
      getOperatorNameAndNamespace env = Except.ok (ns, name) →
      env.deployServiceErr = none →
      env.certResult = Except.ok c →
      env.deployWebhookConfigErr = none →
      Start env regs = Except.ok
        { certDir := c.certDir
          port := servicePort
          serverPaths := regs.map (fun r => (r.p, r.h))
          webhookConfig :=
            buildValidatingWebhookConfiguration name ns c.signingCert regs }) := by
  constructor
  · intro h
    subst h
    simp [Start]
  · intro ns name c hne hid hsvc hcert hcfg
    have hlen : ¬ regs.length = 0 := by
      simpa [List.length_eq_zero] using hne
    simp [Start, hlen, hid, hsvc, hcert, hcfg]

/-- A concrete Start environment in which every collaborator succeeds. -/
def envS : StartEnv where
  getOperatorName := Except.ok "spinnaker-operator"
  getOperatorNamespace := Except.ok "opns"
  envAdmissionProxyNamespace := ""
  deployServiceErr := none
  certResult := Except.ok { certDir := "/certs", signingCert := [1, 2, 3] }
  deployWebhookConfigErr := none

/-- The registry after the single Register call the accountvalidating
controller makes. -/
def regsS : List registration :=
  Register accountGVK "spinnakeraccounts" 7 []

/-- C5 witness: with the one concrete registration and a fully succeeding
environment, Start serves exactly that registration's path; with the
empty registry it fails. -/
theorem start_zero_fails_nonzero_registers_paths_witness :
    Start envS [] = Except.error "no kind registered for validation" ∧
    Start envS regsS = Except.ok
      { certDir := "/certs"
        port := servicePort
        serverPaths := regsS.map (fun r => (r.p, r.h))
        webhookConfig :=
          buildValidatingWebhookConfiguration "spinnaker-operator" "opns"
            [1, 2, 3] regsS } :=
  ⟨(start_zero_fails_nonzero_registers_paths envS []).1 rfl,
   (start_zero_fails_nonzero_registers_paths envS regsS).2 "opns"
     "spinnaker-operator" { certDir := "/certs", signingCert := [1, 2, 3] }
     (by decide) rfl rfl rfl rfl⟩

/-- C9: operator identity resolution returns the platform namespace and
name when both lookups succeed; when the namespace lookup fails, the
ADMISSION_PROXY_NAMESPACE variable supplies the namespace; when that
variable is also empty, resolution fails, and Start propagates the
failure, aborting startup. -/
theorem operator_identity_resolution (env : StartEnv) :
    (∀ name ns, env.getOperatorName = Except.ok name →
      env.getOperatorNamespace = Except.ok ns →
      getOperatorNameAndNamespace env = Except.ok (ns, name)) ∧
    (∀ name e, env.getOperatorName = Except.ok name →
      env.getOperatorNamespace = Except.error e →
      env.envAdmissionProxyNamespace ≠ "" →
      getOperatorNameAndNamespace env =
        Except.ok (env.envAdmissionProxyNamespace, name)) ∧
    (∀ name e, env.getOperatorName = Except.ok name →
      env.getOperatorNamespace = Except.error e →
      env.envAdmissionProxyNamespace = "" →
      getOperatorNameAndNamespace env = Except.error
        ("unable to determine operator namespace. Error: " ++ e ++
          " and ADMISSION_PROXY_NAMESPACE env var not set")) ∧
    (∀ regs e, regs ≠ [] →
      getOperatorNameAndNamespace env = Except.error e →
      Start env regs = Except.error e) := by
  refine ⟨fun name ns h1 h2 => ?_, fun name e h1 h2 h3 => ?_,
    fun name e h1 h2 h3 => ?_, fun regs e hne hid => ?_⟩
  · simp [getOperatorNameAndNamespace, h1, h2]
  · simp [getOperatorNameAndNamespace, h1, h2, h3]
  · simp [getOperatorNameAndNamespace, h1, h2, h3]
  · have hlen : ¬ regs.length = 0 := by
      simpa [List.length_eq_zero] using hne
    simp [Start, hlen, hid]

/-- A concrete Start environment in which the platform namespace lookup
fails and the fallback environment variable is set. -/
def envS2 : StartEnv where
  getOperatorName := Except.ok "spinnaker-operator"
  getOperatorNamespace := Except.error "not running in cluster"
  envAdmissionProxyNamespace := "proxyns"
  deployServiceErr := none
  certResult := Except.ok { certDir := "/certs", signingCert := [1, 2, 3] }
  deployWebhookConfigErr := none

/-- A concrete Start environment in which the platform namespace lookup
fails and the fallback environment variable is unset. -/
def envS3 : StartEnv where
  getOperatorName := Except.ok "spinnaker-operator"
  getOperatorNamespace := Except.error "not running in cluster"
  envAdmissionProxyNamespace := ""
  deployServiceErr := none
  certResult := Except.ok { certDir := "/certs", signingCert := [1, 2, 3] }
  deployWebhookConfigErr := none

/-- C9 witness: the fallback variable supplies the namespace in envS2;
with the variable unset (envS3) resolution fails and Start aborts with
that error. -/
theorem operator_identity_resolution_witness :
    getOperatorNameAndNamespace envS2 =
      Except.ok ("proxyns", "spinnaker-operator") ∧
    getOperatorNameAndNamespace envS3 = Except.error
      ("unable to determine operator namespace. Error: not running in cluster" ++
        " and ADMISSION_PROXY_NAMESPACE env var not set") ∧
    Start envS3 regsS = Except.error
      ("unable to determine operator namespace. Error: not running in cluster" ++
        " and ADMISSION_PROXY_NAMESPACE env var not set") :=
  ⟨(operator_identity_resolution envS2).2.1 "spinnaker-operator"
     "not running in cluster" rfl rfl (by decide),
   (operator_identity_resolution envS3).2.2.1 "spinnaker-operator"
     "not running in cluster" rfl rfl rfl,
   (operator_identity_resolution envS3).2.2.2 regsS
     ("unable to determine operator namespace. Error: not running in cluster" ++
       " and ADMISSION_PROXY_NAMESPACE env var not set")
     (by decide)
     ((operator_identity_resolution envS3).2.2.1 "spinnaker-operator"
       "not running in cluster" rfl rfl rfl)⟩

/-- C7: the built validating webhook configuration has exactly one
webhook entry per registration; the entry at each index has the name
webhook-(resource name)-(version).(lowercased group), references the
endpoint service in the operator namespace at the registration's path,
carries the CA bundle, filters exactly the create and update operations
on the registration's group/version/resource, declares side effects none,
and supports the v1beta1 and v1 review versions. -/
theorem validating_webhook_config_per_registration
    (svcName ns : String) (cert : List Nat) (regs : List registration)
    (i : Nat) (hi : i < regs.length) :
    (buildValidatingWebhookConfiguration svcName ns cert regs).webhooks.length
        = regs.length ∧
    ∃ w, (buildValidatingWebhookConfiguration svcName ns cert regs).webhooks[i]?
        = some w ∧
      w.name = "webhook-" ++ (regs.get ⟨i, hi⟩).r ++ "-" ++
        (regs.get ⟨i, hi⟩).kind.version ++ "." ++
        toLowerGo (regs.get ⟨i, hi⟩).kind.group ∧
      w.clientConfig.service.Namespace = ns ∧
      w.clientConfig.service.name = svcName ∧
      w.clientConfig.service.path = (regs.get ⟨i, hi⟩).p ∧
      w.clientConfig.caBundle = cert ∧
      w.rules = [{ operations := [OperationType.Create, OperationType.Update]
                   rule := { apiGroups := [(regs.get ⟨i, hi⟩).kind.group]
                             apiVersions := [(regs.get ⟨i, hi⟩).kind.version]
                             resources := [(regs.get ⟨i, hi⟩).r] } }] ∧
      w.sideEffects = SideEffectClass.None ∧
      w.admissionReviewVersions = ["v1beta1", "v1"] := by
  refine ⟨by simp [buildValidatingWebhookConfiguration], ?_⟩
  refine ⟨webhookEntryFor svcName ns cert (regs.get ⟨i, hi⟩), ?_,
    rfl, rfl, rfl, rfl, rfl, rfl, rfl, rfl⟩
  simp [buildValidatingWebhookConfiguration, List.getElem?_map,
    List.getElem?_eq_getElem hi]

/-- C7 witness: the configuration built from the one concrete
registration contains exactly its entry, with the concrete derived name,
service reference, CA bundle, operations, and side-effect class. -/
theorem validating_webhook_config_per_registration_witness :
    (buildValidatingWebhookConfiguration "spinnaker-operator" "opns" [1, 2, 3]
        regsS).webhooks.length = regsS.length ∧
    ∃ w, (buildValidatingWebhookConfiguration "spinnaker-operator" "opns"
        [1, 2, 3] regsS).webhooks[0]? = some w ∧
      w.name = "webhook-spinnakeraccounts-v1alpha2.spinnaker.io" ∧
      w.clientConfig.service.Namespace = "opns" ∧
      w.clientConfig.service.name = "spinnaker-operator" ∧
      w.clientConfig.service.path =
        "/validate-spinnaker-io-v1alpha2-spinnakeraccount" ∧
      w.clientConfig.caBundle = [1, 2, 3] ∧
      w.rules = [{ operations := [OperationType.Create, OperationType.Update]
                   rule := { apiGroups := ["spinnaker.io"]
                             apiVersions := ["v1alpha2"]
                             resources := ["spinnakeraccounts"] } }] ∧
      w.sideEffects = SideEffectClass.None ∧
      w.admissionReviewVersions = ["v1beta1", "v1"] :=
  validating_webhook_config_per_registration "spinnaker-operator" "opns"
    [1, 2, 3] regsS 0 (by decide)

end SpinnakerWebhook
